import Mathlib

/-!
Verification of the status-reconciliation logic of the backup/replication
CLI dashboards (`scripts/syncoid-list.py` and `scripts/backup-status.py`).

Timestamps and ages are modelled as exact rationals (the Python code uses
floats only for subtraction, division by 3600 and order comparisons, all of
which the rationals represent exactly on the inputs of interest).  Status
codes are integers in `syncoid-list.py` and floats (here rationals) in
`backup-status.py`, matching each script.  The colored status strings are
kept verbatim, markup included.
-/

/-- Whether the character list `h` starts with `n`. -/
def leadsWith : List Char → List Char → Bool
  | [], _ => true
  | _ :: _, [] => false
  | a :: as, b :: bs => a = b && leadsWith as bs

/-- Whether `n` occurs as a contiguous run inside `h`. -/
def hasSub : List Char → List Char → Bool
  | n, [] => n.isEmpty
  | n, c :: cs => leadsWith n (c :: cs) || hasSub n cs

/-- Model of the Python substring operator `needle in hay`. -/
def containsSub (hay needle : String) : Bool :=
  hasSub needle.data hay.data

/-- Model of the Python lowercasing method on strings (the identifiers
filtered here are ASCII, for which per-character lowering is exact). -/
def lowerStr (s : String) : String :=
  ⟨s.data.map Char.toLower⟩

namespace SyncoidList

/-- Constant `STALE_THRESHOLD_HOURS = 2` from `syncoid-list.py` (syncoid runs more
frequently than restic backups). -/
def STALE_THRESHOLD_HOURS : ℕ := 2

/-- Function `get_status_display(status, last_success)` from `syncoid-list.py`
(lines 172-201), with the call `datetime.now().timestamp()` made an explicit
`now` parameter.  Returns `(status_text, color, details)`. -/
def get_status_display (status : Option ℤ) (last_success : Option ℚ) (now : ℚ) :
    String × String × String :=
  if status = some 2 then
    ("RUNNING", "cyan", "Replication in progress")
  else if status = some 0 then
    ("FAILED", "red", "Last run failed")
  else if status = some 1 then
    match last_success with
    | some ls =>
      if (now - ls) / 3600 > (STALE_THRESHOLD_HOURS : ℚ) then
        ("STALE", "yellow", "Last success > " ++ toString STALE_THRESHOLD_HOURS ++ "h ago")
      else
        ("OK", "green", "Healthy")
    | none => ("OK", "green", "Healthy (no timestamp)")
  else
    match last_success with
    | some ls =>
      if (now - ls) / 3600 > (STALE_THRESHOLD_HOURS : ℚ) then
        ("STALE", "yellow", "Last success > " ++ toString STALE_THRESHOLD_HOURS ++ "h ago")
      else
        ("UNKNOWN", "dim", "No status metric")
    | none => ("UNKNOWN", "dim", "No status metric")

/-- One job dictionary of `syncoid-list.py`.  Prometheus-built dictionaries
carry an `instance` label and verify-built ones a `systemd_state` label; the
record holds both (empty string standing for the absent key), which is the
only shape difference between the two acquisition paths. -/
structure Job where
  dataset : String
  unit : String
  target_host : String
  target_name : String
  target_location : String
  status : Option ℤ
  last_success : Option ℚ
  prom_instance : String
  systemd_state : String
deriving DecidableEq

/-- The verdict both `print_table_output` and `print_json_output` compute for
a job: `get_status_display` applied to its status and last-success keys. -/
def job_verdict (j : Job) (now : ℚ) : String × String × String :=
  get_status_display j.status j.last_success now

/-- The job dictionary created for a dataset discovered from the
`syncoid_replication_info` metric (`syncoid-list.py` lines 103-112):
`status` and `last_success` start as `None`. -/
def job_from_info (dataset unit target_host target_name target_location inst : String) :
    Job :=
  ⟨dataset, unit, target_host, target_name, target_location, none, none, inst, ""⟩

/-- Status derivation of verify mode (`get_syncoid_verify_data`, lines
323-328): `activating` means in-progress, a `success` result means success,
anything else failed. -/
def verify_status (active_state result : String) : ℤ :=
  if active_state = "activating" then 2
  else if result = "success" then 1
  else 0

/-- The `--dataset` / `--target` filters of `main` (lines 564-569):
case-insensitive substring match; an absent (or empty, hence falsy) argument
leaves the list unchanged. -/
def filter_jobs (jobs : List Job) (dataset_f target_f : Option String) : List Job :=
  let jobs1 :=
    match dataset_f with
    | none => jobs
    | some f =>
      if f = "" then jobs
      else jobs.filter (fun j => containsSub (lowerStr j.dataset) (lowerStr f))
  match target_f with
  | none => jobs1
  | some f =>
    if f = "" then jobs1
    else jobs1.filter (fun j => containsSub (lowerStr j.target_host) (lowerStr f))

/-- The `summary` object of `print_json_output` (lines 466-479). -/
structure Summary where
  total : ℕ
  ok : ℕ
  running : ℕ
  stale : ℕ
  failed : ℕ
  healthy : ℕ
deriving DecidableEq

/-- How `print_json_output` tallies `stats`: the number of jobs whose
lower-cased status text equals the given key. -/
def count_status (jobs : List Job) (now : ℚ) (key : String) : ℕ :=
  (jobs.filter (fun j => lowerStr (job_verdict j now).1 == key)).length

/-- The summary counts emitted by `print_json_output`. -/
def json_summary (jobs : List Job) (now : ℚ) : Summary :=
  ⟨jobs.length,
   count_status jobs now "ok",
   count_status jobs now "running",
   count_status jobs now "stale",
   count_status jobs now "failed",
   count_status jobs now "ok" + count_status jobs now "running"⟩

/-- Exit code of `main` after successful acquisition (lines 571-582): JSON
mode always returns 0; table mode returns 1 when the filtered job list is
empty and 0 otherwise. -/
def main_exit_code (jobs : List Job) (dataset_f target_f : Option String)
    (json_mode : Bool) : ℕ :=
  let fj := filter_jobs jobs dataset_f target_f
  if json_mode then 0
  else if fj.isEmpty then 1 else 0

end SyncoidList

namespace BackupStatus

/-- Constant `STALE_THRESHOLD_HOURS = 26` from `backup-status.py`. -/
def STALE_THRESHOLD_HOURS : ℕ := 26

/-- Function `get_status_for_age(age_seconds, system)` from `backup-status.py`
(lines 101-108); the `system` parameter (default `"backup"`) is unused by
the source body. -/
def get_status_for_age (age_seconds : ℚ) (system : String) : String × String :=
  if age_seconds > (STALE_THRESHOLD_HOURS : ℚ) * 3600 then
    ("[bold yellow]STALE[/bold yellow]",
     "Last success > " ++ toString STALE_THRESHOLD_HOURS ++ "h ago")
  else
    ("[bold green]OK[/bold green]", "Healthy")

/-- Function `get_syncoid_status(status_value)` from `backup-status.py`
(lines 111-118): 0 failed, 2 in-progress, anything else treated as success. -/
def get_syncoid_status (status_value : ℚ) : String × String :=
  if status_value = 0 then ("[bold red]FAILED[/bold red]", "Last run failed")
  else if status_value = 2 then ("[bold cyan]RUNNING[/bold cyan]", "In progress")
  else ("[bold green]OK[/bold green]", "Success")

/-- Function `get_restic_status(status_value)` from `backup-status.py`
(lines 121-126). -/
def get_restic_status (status_value : ℚ) : String × String :=
  if status_value = 0 then ("[bold red]FAILED[/bold red]", "Last run failed")
  else ("[bold green]OK[/bold green]", "Success")

/-- The per-row syncoid verdict of `main` (lines 236-245): with a status
metric, interpret it, and only a success status is escalated by the
staleness check (the Python test is the substring check
`"STALE" in age_status`); with no status metric, rely on age alone. -/
def syncoid_row_status (current_status : Option ℚ) (age_sec : ℚ) : String × String :=
  match current_status with
  | some s =>
    let sd := get_syncoid_status s
    if s = 1 then
      let ad := get_status_for_age age_sec ("backup")
      if containsSub ad.1 ("STALE") then ad else sd
    else sd
  | none => get_status_for_age age_sec ("backup")

/-- The per-row restic verdict of `main` (lines 284-293), same shape as the
syncoid rows. -/
def restic_row_status (current_status : Option ℚ) (age_sec : ℚ) : String × String :=
  match current_status with
  | some s =>
    let sd := get_restic_status s
    if s = 1 then
      let ad := get_status_for_age age_sec ("backup")
      if containsSub ad.1 ("STALE") then ad else sd
    else sd
  | none => get_status_for_age age_sec ("backup")

/-- The repo-error scan of `main` (lines 188-192): some error result row has
`repo_key` equal to the repo key of this row. -/
def repo_has_error (repo_errors : List (Option String)) (repo : String) : Bool :=
  repo_errors.any (fun k => k == some repo)

/-- The per-row pgBackRest verdict of `main` (lines 194-198): a repo-level
error flag wins outright, otherwise the staleness check on age decides. -/
def pgbackrest_row_status (repo_errors : List (Option String)) (repo : String)
    (age_sec : ℚ) : String × String :=
  if repo_has_error repo_errors repo then
    ("[bold red]ERROR[/bold red]", "Repository error")
  else
    get_status_for_age age_sec ("backup")

end BackupStatus

/-- C1: with both statusCode and last-success age absent — in particular for
a job discovered only from the info metric — the syncoid normalizer returns
UNKNOWN with detail "No status metric", never OK. -/
theorem c1_absent_both_unknown (now : ℚ)
    (dataset unit target_host target_name target_location inst : String) :
    SyncoidList.get_status_display none none now = ("UNKNOWN", "dim", "No status metric")
    ∧ (SyncoidList.job_verdict
        (SyncoidList.job_from_info dataset unit target_host target_name target_location inst)
        now).1 = "UNKNOWN"
    ∧ (SyncoidList.get_status_display none none now).1 ≠ "OK" := by
  refine ⟨rfl, rfl, ?_⟩
  show ("UNKNOWN" : String) ≠ "OK"
  decide

/-- Evaluation of the syncoid normalizer at a present success status and a
stale age: strictly more than 7200 seconds (2 hours) since last success. -/
theorem gsd_success_stale (ls now : ℚ) (h : 7200 < now - ls) :
    SyncoidList.get_status_display (some 1) (some ls) now
      = ("STALE", "yellow", "Last success > 2h ago") := by
  have hred : SyncoidList.get_status_display (some 1) (some ls) now
      = if (now - ls) / 3600 > (SyncoidList.STALE_THRESHOLD_HOURS : ℚ) then
          ("STALE", "yellow",
            "Last success > " ++ toString SyncoidList.STALE_THRESHOLD_HOURS ++ "h ago")
        else ("OK", "green", "Healthy") := rfl
  have hcast : (SyncoidList.STALE_THRESHOLD_HOURS : ℚ) = 2 := by
    norm_num [SyncoidList.STALE_THRESHOLD_HOURS]
  have hc : (now - ls) / 3600 > (SyncoidList.STALE_THRESHOLD_HOURS : ℚ) := by
    rw [hcast, gt_iff_lt, lt_div_iff (by norm_num : (0:ℚ) < 3600)]
    linarith
  rw [hred, if_pos hc]
  rfl

/-- Evaluation of the syncoid normalizer at a present success status and an
age of at most 7200 seconds. -/
theorem gsd_success_fresh (ls now : ℚ) (h : now - ls ≤ 7200) :
    SyncoidList.get_status_display (some 1) (some ls) now = ("OK", "green", "Healthy") := by
  have hred : SyncoidList.get_status_display (some 1) (some ls) now
      = if (now - ls) / 3600 > (SyncoidList.STALE_THRESHOLD_HOURS : ℚ) then
          ("STALE", "yellow",
            "Last success > " ++ toString SyncoidList.STALE_THRESHOLD_HOURS ++ "h ago")
        else ("OK", "green", "Healthy") := rfl
  have hcast : (SyncoidList.STALE_THRESHOLD_HOURS : ℚ) = 2 := by
    norm_num [SyncoidList.STALE_THRESHOLD_HOURS]
  have hc : ¬ ((now - ls) / 3600 > (SyncoidList.STALE_THRESHOLD_HOURS : ℚ)) := by
    rw [hcast, gt_iff_lt, not_lt, div_le_iff (by norm_num : (0:ℚ) < 3600)]
    linarith
  rw [hred, if_neg hc]

/-- Evaluation of the syncoid normalizer at an absent status and a stale
age. -/
theorem gsd_none_stale (ls now : ℚ) (h : 7200 < now - ls) :
    SyncoidList.get_status_display none (some ls) now
      = ("STALE", "yellow", "Last success > 2h ago") := by
  have hred : SyncoidList.get_status_display none (some ls) now
      = if (now - ls) / 3600 > (SyncoidList.STALE_THRESHOLD_HOURS : ℚ) then
          ("STALE", "yellow",
            "Last success > " ++ toString SyncoidList.STALE_THRESHOLD_HOURS ++ "h ago")
        else ("UNKNOWN", "dim", "No status metric") := rfl
  have hcast : (SyncoidList.STALE_THRESHOLD_HOURS : ℚ) = 2 := by
    norm_num [SyncoidList.STALE_THRESHOLD_HOURS]
  have hc : (now - ls) / 3600 > (SyncoidList.STALE_THRESHOLD_HOURS : ℚ) := by
    rw [hcast, gt_iff_lt, lt_div_iff (by norm_num : (0:ℚ) < 3600)]
    linarith
  rw [hred, if_pos hc]
  rfl

/-- Evaluation of the syncoid normalizer at an absent status and an age of
at most 7200 seconds. -/
theorem gsd_none_fresh (ls now : ℚ) (h : now - ls ≤ 7200) :
    SyncoidList.get_status_display none (some ls) now
      = ("UNKNOWN", "dim", "No status metric") := by
  have hred : SyncoidList.get_status_display none (some ls) now
      = if (now - ls) / 3600 > (SyncoidList.STALE_THRESHOLD_HOURS : ℚ) then
          ("STALE", "yellow",
            "Last success > " ++ toString SyncoidList.STALE_THRESHOLD_HOURS ++ "h ago")
        else ("UNKNOWN", "dim", "No status metric") := rfl
  have hcast : (SyncoidList.STALE_THRESHOLD_HOURS : ℚ) = 2 := by
    norm_num [SyncoidList.STALE_THRESHOLD_HOURS]
  have hc : ¬ ((now - ls) / 3600 > (SyncoidList.STALE_THRESHOLD_HOURS : ℚ)) := by
    rw [hcast, gt_iff_lt, not_lt, div_le_iff (by norm_num : (0:ℚ) < 3600)]
    linarith
  rw [hred, if_neg hc]

/-- Evaluation of the dashboard staleness check past its threshold:
strictly more than 93600 seconds (26 hours). -/
theorem gsfa_stale (age : ℚ) (h : 93600 < age) :
    BackupStatus.get_status_for_age age ("backup")
      = ("[bold yellow]STALE[/bold yellow]", "Last success > 26h ago") := by
  have hc : age > (BackupStatus.STALE_THRESHOLD_HOURS : ℚ) * 3600 := by
    have hcast : (BackupStatus.STALE_THRESHOLD_HOURS : ℚ) * 3600 = 93600 := by
      norm_num [BackupStatus.STALE_THRESHOLD_HOURS]
    rw [hcast]
    exact h
  unfold BackupStatus.get_status_for_age
  rw [if_pos hc]
  rfl

/-- Evaluation of the dashboard staleness check at or under its
threshold. -/
theorem gsfa_fresh (age : ℚ) (h : age ≤ 93600) :
    BackupStatus.get_status_for_age age ("backup")
      = ("[bold green]OK[/bold green]", "Healthy") := by
  have hc : ¬ (age > (BackupStatus.STALE_THRESHOLD_HOURS : ℚ) * 3600) := by
    have hcast : (BackupStatus.STALE_THRESHOLD_HOURS : ℚ) * 3600 = 93600 := by
      norm_num [BackupStatus.STALE_THRESHOLD_HOURS]
    rw [hcast, gt_iff_lt, not_lt]
    exact h
  unfold BackupStatus.get_status_for_age
  rw [if_neg hc]

/-- C2: a present failed statusCode (0) yields FAILED regardless of the age,
in the syncoid normalizer, in the syncoid rows of the dashboard and in its restic
rows; the staleness check is never consulted, so the result is never OK or
STALE. -/
theorem c2_failed_outranks_staleness :
    (∀ (ls : Option ℚ) (now : ℚ),
      SyncoidList.get_status_display (some 0) ls now = ("FAILED", "red", "Last run failed"))
    ∧ (∀ age : ℚ,
      BackupStatus.syncoid_row_status (some 0) age = ("[bold red]FAILED[/bold red]", "Last run failed"))
    ∧ (∀ age : ℚ,
      BackupStatus.restic_row_status (some 0) age = ("[bold red]FAILED[/bold red]", "Last run failed")) := by
  refine ⟨fun ls now => ?_, fun age => ?_, fun age => ?_⟩
  · simp [SyncoidList.get_status_display]
  · simp [BackupStatus.syncoid_row_status, BackupStatus.get_syncoid_status]
  · simp [BackupStatus.restic_row_status, BackupStatus.get_restic_status]

/-- C3: a Replication statusCode of 2 yields RUNNING whatever the age, both
in the syncoid normalizer and in the syncoid rows of the dashboard. -/
theorem c3_running_ignores_age :
    (∀ (ls : Option ℚ) (now : ℚ),
      SyncoidList.get_status_display (some 2) ls now = ("RUNNING", "cyan", "Replication in progress"))
    ∧ (∀ age : ℚ,
      BackupStatus.syncoid_row_status (some 2) age = ("[bold cyan]RUNNING[/bold cyan]", "In progress")) := by
  refine ⟨fun ls now => ?_, fun age => ?_⟩
  · simp [SyncoidList.get_status_display]
  · simp [BackupStatus.syncoid_row_status, BackupStatus.get_syncoid_status]

/-- C5 counterexample: at statusCode 1 with an absent last-success timestamp
the syncoid normalizer answers OK "Healthy (no timestamp)", not UNKNOWN. -/
theorem c5_counterexample :
    SyncoidList.get_status_display (some 1) none 1000 = ("OK", "green", "Healthy (no timestamp)")
    ∧ (SyncoidList.get_status_display (some 1) none 1000).1 ≠ "UNKNOWN" := by
  exact ⟨rfl, by decide⟩

/-- C5 amended: for a Replication job with statusCode 1 and an absent
last-success age, the staleness check is skipped entirely and the verdict is
OK with detail "Healthy (no timestamp)" — not UNKNOWN and not STALE. -/
theorem c5_amended_success_without_timestamp_is_ok (now : ℚ) :
    SyncoidList.get_status_display (some 1) none now = ("OK", "green", "Healthy (no timestamp)") := by
  rfl

/-- C7: the normalizer is deterministic; evaluating it a second time on the
same raw signal and the same `now` yields the identical verdict triple. -/
theorem c7_normalizer_deterministic (status : Option ℤ) (ls : Option ℚ) (now : ℚ) :
    SyncoidList.get_status_display status ls now = SyncoidList.get_status_display status ls now :=
  rfl

/-- C8: acquisition provenance never influences the verdict: two job records
agreeing on statusCode and last-success age get the identical verdict, no
matter how every other field (identity, target, Prometheus instance label,
systemd state label) differs. -/
theorem c8_provenance_no_leak (j1 j2 : SyncoidList.Job) (now : ℚ)
    (hs : j1.status = j2.status) (hl : j1.last_success = j2.last_success) :
    SyncoidList.job_verdict j1 now = SyncoidList.job_verdict j2 now := by
  unfold SyncoidList.job_verdict
  rw [hs, hl]

/-- C8 witness: a Prometheus-shaped record and a verify-shaped record (its
status derived by `verify_status` from systemd state) with the same
(statusCode, age) pair normalize identically. -/
theorem c8_witness :
    SyncoidList.job_verdict
      ⟨"tank/services/sonarr", "syncoid-tank-services-sonarr", "nas-1", "NFS", "rack",
        some 1, some 100, "forge:9090", ""⟩ 200
    = SyncoidList.job_verdict
      ⟨"tank/services/sonarr", "syncoid-tank-services-sonarr", "nas-1", "", "",
        some (SyncoidList.verify_status ("inactive") ("success")), some 100, "", "inactive/dead"⟩ 200 :=
  c8_provenance_no_leak _ _ 200 (by decide) rfl

/-- C4 counterexample: at an age exactly equal to the threshold the code
answers OK, not STALE — the comparison is strict in both scripts.  Syncoid
normalizer at age 7200 s (exactly 2 h); dashboard staleness check at age
93600 s (exactly 26 h). -/
theorem c4_counterexample :
    SyncoidList.get_status_display (some 1) (some 0) 7200 = ("OK", "green", "Healthy")
    ∧ BackupStatus.get_status_for_age 93600 ("backup")
        = ("[bold green]OK[/bold green]", "Healthy") :=
  ⟨gsd_success_fresh 0 7200 (by norm_num), gsfa_fresh 93600 (by norm_num)⟩

/-- C4 amended: for fixed statusCode 1 the staleness verdict is monotone
with a strict boundary: an age at or under the threshold (7200 s in
`syncoid-list.py`, 93600 s in `backup-status.py`) yields OK, and an age
strictly over it yields STALE with detail "Last success > Xh ago". -/
theorem c4_amended_strict_boundary (ls now age : ℚ) :
    ((now - ls ≤ 7200 →
        SyncoidList.get_status_display (some 1) (some ls) now = ("OK", "green", "Healthy"))
      ∧ (7200 < now - ls →
        SyncoidList.get_status_display (some 1) (some ls) now
          = ("STALE", "yellow", "Last success > 2h ago")))
    ∧ ((age ≤ 93600 →
        BackupStatus.get_status_for_age age ("backup")
          = ("[bold green]OK[/bold green]", "Healthy"))
      ∧ (93600 < age →
        BackupStatus.get_status_for_age age ("backup")
          = ("[bold yellow]STALE[/bold yellow]", "Last success > 26h ago"))) :=
  ⟨⟨gsd_success_fresh ls now, gsd_success_stale ls now⟩,
   ⟨gsfa_fresh age, gsfa_stale age⟩⟩

/-- C4 witness: one second past each threshold is STALE with the formatted
detail, one second under each is OK. -/
theorem c4_witness :
    SyncoidList.get_status_display (some 1) (some 0) 7201
      = ("STALE", "yellow", "Last success > 2h ago")
    ∧ SyncoidList.get_status_display (some 1) (some 0) 7199 = ("OK", "green", "Healthy")
    ∧ BackupStatus.get_status_for_age 93601 ("backup")
      = ("[bold yellow]STALE[/bold yellow]", "Last success > 26h ago")
    ∧ BackupStatus.get_status_for_age 93599 ("backup")
      = ("[bold green]OK[/bold green]", "Healthy") :=
  ⟨((c4_amended_strict_boundary 0 7201 93601).1.2 (by norm_num)),
   ((c4_amended_strict_boundary 0 7199 93599).1.1 (by norm_num)),
   ((c4_amended_strict_boundary 0 7201 93601).2.2 (by norm_num)),
   ((c4_amended_strict_boundary 0 7199 93599).2.1 (by norm_num))⟩

/-- C6: the pgBackRest verdict is error-flag-first: with a repo-level error
flag set for the repository key of this row it is ERROR with detail "Repository
error" whatever the age; with no flag set it is exactly the staleness check
on the age. -/
theorem c6_pgbackrest_error_first (repo_errors : List (Option String)) (repo : String)
    (age : ℚ) :
    (BackupStatus.repo_has_error repo_errors repo = true →
      BackupStatus.pgbackrest_row_status repo_errors repo age
        = ("[bold red]ERROR[/bold red]", "Repository error"))
    ∧ (BackupStatus.repo_has_error repo_errors repo = false →
      BackupStatus.pgbackrest_row_status repo_errors repo age
        = BackupStatus.get_status_for_age age ("backup")) := by
  unfold BackupStatus.pgbackrest_row_status
  constructor <;> intro h <;> simp [h]

/-- C6 witness: at a fresh age of 10 s, the error flag for repo key "1"
forces ERROR; without any flag the same age is OK. -/
theorem c6_witness :
    BackupStatus.pgbackrest_row_status [some ("1")] ("1") 10
      = ("[bold red]ERROR[/bold red]", "Repository error")
    ∧ BackupStatus.pgbackrest_row_status [] ("1") 10
      = BackupStatus.get_status_for_age 10 ("backup")
    ∧ BackupStatus.get_status_for_age 10 ("backup")
      = ("[bold green]OK[/bold green]", "Healthy") :=
  ⟨(c6_pgbackrest_error_first [some ("1")] ("1") 10).1 (by decide),
   (c6_pgbackrest_error_first [] ("1") 10).2 (by decide),
   gsfa_fresh 10 (by norm_num)⟩

/-- C9 counterexample: in table mode, a dataset filter matching nothing
makes `main` return exit code 1 — the same failure exit as when acquisition
produced nothing — not a non-error outcome. -/
theorem c9_counterexample :
    SyncoidList.main_exit_code
      [⟨"tank/services/sonarr", "syncoid-tank-services-sonarr", "nas-1.holthome.net", "", "",
        some 1, some 0, "", ""⟩]
      (some ("zzz")) none false = 1 := by
  decide

/-- C9 amended: a filter matching zero identities yields the empty job list;
in JSON mode the summary counts are all zero and the exit code is 0 (a valid
outcome), but in table mode `main` returns exit code 1, indistinguishable
from an empty acquisition. -/
theorem c9_amended_empty_filter (jobs : List SyncoidList.Job)
    (dataset_f target_f : Option String) (now : ℚ)
    (h : SyncoidList.filter_jobs jobs dataset_f target_f = []) :
    SyncoidList.json_summary (SyncoidList.filter_jobs jobs dataset_f target_f) now
      = ⟨0, 0, 0, 0, 0, 0⟩
    ∧ SyncoidList.main_exit_code jobs dataset_f target_f true = 0
    ∧ SyncoidList.main_exit_code jobs dataset_f target_f false = 1 := by
  refine ⟨?_, rfl, ?_⟩
  · rw [h]
    rfl
  · unfold SyncoidList.main_exit_code
    simp [h]

/-- C9 witness: a one-job list and the filter "zzz" that matches nothing:
zero summary, exit 0 in JSON mode, exit 1 in table mode. -/
theorem c9_witness :
    SyncoidList.json_summary
      (SyncoidList.filter_jobs
        [⟨"tank", "u", "nas", "", "", some 1, some 0, "", ""⟩] (some ("zzz")) none) 0
      = ⟨0, 0, 0, 0, 0, 0⟩
    ∧ SyncoidList.main_exit_code [⟨"tank", "u", "nas", "", "", some 1, some 0, "", ""⟩]
        (some ("zzz")) none true = 0
    ∧ SyncoidList.main_exit_code [⟨"tank", "u", "nas", "", "", some 1, some 0, "", ""⟩]
        (some ("zzz")) none false = 1 :=
  c9_amended_empty_filter _ _ _ 0 (by decide)

/-- C10: any syncoid statusCode outside 0, 1, 2 normalizes exactly like an
absent statusCode: STALE when the age strictly exceeds the 2-hour threshold,
otherwise UNKNOWN with detail "No status metric"; never RUNNING, FAILED or
OK. -/
theorem c10_out_of_range_like_absent (s : ℤ) (h0 : s ≠ 0) (h1 : s ≠ 1) (h2 : s ≠ 2)
    (ls : Option ℚ) (now : ℚ) :
    SyncoidList.get_status_display (some s) ls now
      = SyncoidList.get_status_display none ls now
    ∧ (ls = none →
        SyncoidList.get_status_display (some s) ls now
          = ("UNKNOWN", "dim", "No status metric"))
    ∧ ∀ l, ls = some l →
        (7200 < now - l →
          SyncoidList.get_status_display (some s) ls now
            = ("STALE", "yellow", "Last success > 2h ago"))
        ∧ (now - l ≤ 7200 →
          SyncoidList.get_status_display (some s) ls now
            = ("UNKNOWN", "dim", "No status metric")) := by
  have key : SyncoidList.get_status_display (some s) ls now
      = SyncoidList.get_status_display none ls now := by
    unfold SyncoidList.get_status_display
    rw [if_neg (by simp only [Option.some.injEq]; exact h2),
        if_neg (by simp only [Option.some.injEq]; exact h0),
        if_neg (by simp only [Option.some.injEq]; exact h1)]
    rfl
  refine ⟨key, ?_, ?_⟩
  · intro hn
    subst hn
    rw [key]
    rfl
  · intro l hl
    subst hl
    exact ⟨fun hage => key.trans (gsd_none_stale l now hage),
           fun hage => key.trans (gsd_none_fresh l now hage)⟩

/-- C10 witness: statusCode 3 with a stale age (10000 s since success) is
STALE, and statusCode -1 with no age is UNKNOWN, matching the absent-status
behavior. -/
theorem c10_witness :
    SyncoidList.get_status_display (some 3) (some 0) 10000
      = SyncoidList.get_status_display none (some 0) 10000
    ∧ SyncoidList.get_status_display (some 3) (some 0) 10000
      = ("STALE", "yellow", "Last success > 2h ago")
    ∧ SyncoidList.get_status_display (some (-1)) none 0
      = ("UNKNOWN", "dim", "No status metric") :=
  ⟨(c10_out_of_range_like_absent 3 (by decide) (by decide) (by decide) (some 0) 10000).1,
   ((c10_out_of_range_like_absent 3 (by decide) (by decide) (by decide) (some 0) 10000).2.2
      0 rfl).1 (by norm_num),
   (c10_out_of_range_like_absent (-1) (by decide) (by decide) (by decide) none 0).2.1 rfl⟩
